import Mathlib

/-!
Verification development for the `public-ip-address` HTTP service
(`src/service/src/main.rs`). The service exposes three operations —
`lookup`, `health`, `metrics` — over an immutable per-process state
holding the start time. We give a shallow embedding of the handlers and
prove the specified properties about them.

Modelling conventions:
* Time stamps are natural numbers of whole seconds (`SystemTime` /
  `Duration::as_secs` granularity); measured request latency is a natural
  number of milliseconds supplied by the environment.
* HTTP status codes are natural numbers; a handler that returns
  `Result<Json<T>, StatusCode>` is embedded as `Except Nat T`.
* A Rust panic (`.unwrap()` on an error value) is embedded as `none` in an
  outer `Option`: the handler aborts and produces no HTTP response at all.
* The network and the random UUID generator are external: they enter the
  embedding as explicit inputs (`LookupEnv`), so each theorem quantifies
  over every possible behaviour of the environment.
-/

namespace PublicIpService

/-- JSON values as produced by `serde_json::Value`. Numbers are embedded as
integers: no code path in the service inspects a numeric payload, so their
exact representation is irrelevant to every handler. -/
inductive Json where
  | null : Json
  | bool (b : Bool) : Json
  | num (n : Int) : Json
  | str (s : String) : Json
  | arr (xs : List Json) : Json
  | obj (fields : List (String × Json)) : Json

/-- Lookup of a key in the field list of a JSON object (first match). -/
def Json.find (fields : List (String × Json)) (k : String) : Option Json :=
  match fields with
  | [] => none
  | (k', v) :: rest => if k' = k then some v else Json.find rest k

/-- Embedding of `serde_json::Value::get(key)`: field lookup on an object,
`None` on every other shape of value. -/
def Json.get (j : Json) (k : String) : Option Json :=
  match j with
  | .obj fields => Json.find fields k
  | _ => none

/-- Embedding of `serde_json::Value::as_str()`: `Some` exactly on strings. -/
def Json.asStr : Json → Option String
  | .str s => some s
  | _ => none

/-- HTTP 502, `StatusCode::BAD_GATEWAY` in the source. -/
def BAD_GATEWAY : Nat := 502

/-- HTTP 500, `StatusCode::INTERNAL_SERVER_ERROR` in the source. -/
def INTERNAL_SERVER_ERROR : Nat := 500

/-- Process state (`struct AppState`, main.rs lines 18-21): the process
start time, created once in `main` and shared read-only by every request. -/
structure AppState where
  started_at : Nat

/-- Request body of `POST /lookup` (`struct LookupRequest`): an optional
IP string. -/
structure LookupRequest where
  ip : Option String

/-- Response body of `POST /lookup` (`struct LookupResponse`). -/
structure LookupResponse where
  ip : String
  raw : Json
  latency_ms : Nat
  request_id : String

/-- Response body of `GET /health` (`struct HealthResponse`). -/
structure HealthResponse where
  status : String
  uptime_sec : Nat

/-- Response body of `GET /metrics` (`struct MetricsResponse`). -/
structure MetricsResponse where
  service : String
  version : String
  uptime_sec : Nat

/-- One structured log line as emitted by the `info!` call in
`lookup_handler` (main.rs line 140): it carries the resolved IP, the
measured latency and the correlation id. -/
structure LogEntry where
  ip : String
  latencyMs : Nat
  requestId : String

/-- Outcome of one outbound `reqwest::get(url)` followed by `.json()`:
either the network call fails, or the body fails to parse as JSON, or a
JSON document is delivered. -/
inductive Upstream where
  | netErr : Upstream
  | parseErr : Upstream
  | ok (j : Json) : Upstream

/-- Environment of one `lookup` request: everything the handler reads that
is not in the request body.

* `header`: the `x-request-id` header — `none` when absent,
  `some none` when present but not parsable as a string
  (`HeaderValue::to_str` fails), `some (some s)` when it parses to `s`;
* `freshId`: the string a call to `Uuid::new_v4().to_string()` would
  return for this request;
* `upstream`: the network's answer to an outbound GET, per URL;
* `selfLookup`: the outcome of `perform_lookup(None)` followed by
  `serde_json::to_value` — `Except.error ()` when the lookup itself fails,
  `.ok none` when serialization of its result fails, `.ok (some j)` when
  it serializes to `j`;
* `latencyMs`: the elapsed milliseconds `start.elapsed().as_millis()`
  measures around the upstream call. -/
structure LookupEnv where
  header : Option (Option String)
  freshId : String
  upstream : String → Upstream
  selfLookup : Except Unit (Option Json)
  latencyMs : Nat

/-- URL built by `lookup_external_ip` (main.rs line 153): the supplied IP
string is interpolated verbatim, with no validation or escaping. -/
def apiUrl (ip : String) : String :=
  "http://ip-api.com/json/" ++ ip ++ "?fields=66846719"

/-- Embedding of `lookup_external_ip` (main.rs lines 152-165): issue one
GET to `apiUrl ip`; a network failure or a JSON parse failure each map to
`BAD_GATEWAY`. -/
def lookup_external_ip (get : String → Upstream) (ip : String) :
    Except Nat Json :=
  match get (apiUrl ip) with
  | .netErr => .error BAD_GATEWAY
  | .parseErr => .error BAD_GATEWAY
  | .ok j => .ok j

/-- Correlation id selection (main.rs lines 112-116): the parsed
`x-request-id` header value when available, otherwise a fresh UUID. -/
def requestIdOf (header : Option (Option String)) (freshId : String) :
    String :=
  (header.bind id).getD freshId

/-- IP normalization (main.rs lines 133-138): take the `query` field if
present, else the `ip` field, then `as_str`, defaulting to `"unknown"`. -/
def extract_ip (raw : Json) : String :=
  (((raw.get "query").orElse (fun _ => raw.get "ip")).bind Json.asStr).getD
    "unknown"

/-- Embedding of `lookup_handler` (main.rs lines 107-148). The result is
`none` when the handler panics (the `serde_json::to_value(res).unwrap()`
on the self-lookup branch), and otherwise the pair of the HTTP outcome —
`Except.ok` a `LookupResponse` (a 200) or `Except.error` a status code —
and the list of log lines the call emitted. -/
def lookup_handler (env : LookupEnv) (req : LookupRequest) :
    Option (Except Nat LookupResponse × List LogEntry) :=
  let request_id := requestIdOf env.header env.freshId
  let rawOutcome : Option (Except Nat Json) :=
    match req.ip with
    | some ip => some (lookup_external_ip env.upstream ip)
    | none =>
      match env.selfLookup with
      | .error _ => some (.error INTERNAL_SERVER_ERROR)
      | .ok none => none
      | .ok (some j) => some (.ok j)
  match rawOutcome with
  | none => none
  | some (.error code) => some (.error code, [])
  | some (.ok raw_json) =>
    let latency := env.latencyMs
    let ip := extract_ip raw_json
    some (.ok { ip := ip, raw := raw_json, latency_ms := latency,
                request_id := request_id },
          [{ ip := ip, latencyMs := latency, requestId := request_id }])

/-- Embedding of `SystemTime::elapsed(..).as_secs()` relative to
`started_at`: the elapsed whole seconds, or an error when the clock reads
earlier than the start time. -/
def systemTimeElapsed (started_at now : Nat) : Except Unit Nat :=
  if started_at ≤ now then .ok (now - started_at) else .error ()

/-- Embedding of `health_handler` (main.rs lines 176-179): `none` models
the panic of `.elapsed().unwrap()` when the clock reads before the start
time; otherwise status `"ok"` with the elapsed whole seconds. -/
def health_handler (state : AppState) (now : Nat) : Option HealthResponse :=
  match systemTimeElapsed state.started_at now with
  | .error _ => none
  | .ok uptime => some { status := "ok", uptime_sec := uptime }

/-- Modelled from the spec: the build/version string baked in through
`env!("CARGO_PKG_VERSION")`. The crate manifest is not among the inspected
sources; the spec only requires a fixed build/version string, so it is
embedded as an arbitrary compile-time constant. -/
def cargoPkgVersion : String := "0.1.0"

/-- Embedding of `metrics_handler` (main.rs lines 188-195): `none` models
the panic of `.elapsed().unwrap()`; otherwise the constant service name,
the build version and the elapsed whole seconds. -/
def metrics_handler (state : AppState) (now : Nat) :
    Option MetricsResponse :=
  match systemTimeElapsed state.started_at now with
  | .error _ => none
  | .ok uptime =>
    some { service := "adatari-ip-service", version := cargoPkgVersion,
           uptime_sec := uptime }

/-- One inbound request, with the environment data its handler consumes. -/
inductive Request where
  | lookup (env : LookupEnv) (req : LookupRequest) : Request
  | health (now : Nat) : Request
  | metrics (now : Nat) : Request

/-- Outcome of dispatching one request to its handler. -/
inductive HandlerOutput where
  | lookupOut (r : Option (Except Nat LookupResponse × List LogEntry)) :
      HandlerOutput
  | healthOut (r : Option HealthResponse) : HandlerOutput
  | metricsOut (r : Option MetricsResponse) : HandlerOutput

/-- Dispatch of one request against the process state. The state component
of the result is what the source leaves behind: `AppState` is shared as
`Arc<AppState>` with no interior mutability, so no handler can write to
it, and the state passes through unchanged. -/
def handleRequest (s : AppState) (r : Request) :
    AppState × HandlerOutput :=
  match r with
  | .lookup env req => (s, .lookupOut (lookup_handler env req))
  | .health now => (s, .healthOut (health_handler s now))
  | .metrics now => (s, .metricsOut (metrics_handler s now))

/-- State construction in `main` (main.rs lines 74-76): the process state
is created exactly once, from the boot-time clock reading. -/
def mainInit (bootTime : Nat) : AppState :=
  { started_at := bootTime }

/-- The state left after serving a list of requests in order. -/
def runServer (s : AppState) (rs : List Request) : AppState :=
  rs.foldl (fun s r => (handleRequest s r).1) s

/-! ## Helper lemmas -/

/-- Explicit-IP branch, network failure: the handler answers 502. -/
lemma lookup_handler_explicit_netErr (env : LookupEnv) (ip : String)
    (h : env.upstream (apiUrl ip) = .netErr) :
    lookup_handler env ⟨some ip⟩ = some (.error BAD_GATEWAY, []) := by
  simp [lookup_handler, lookup_external_ip, h]

/-- Explicit-IP branch, JSON parse failure: the handler answers 502. -/
lemma lookup_handler_explicit_parseErr (env : LookupEnv) (ip : String)
    (h : env.upstream (apiUrl ip) = .parseErr) :
    lookup_handler env ⟨some ip⟩ = some (.error BAD_GATEWAY, []) := by
  simp [lookup_handler, lookup_external_ip, h]

/-- Explicit-IP branch, upstream delivers `j`: the handler succeeds with
the normalized IP, the raw document, and one log line. -/
lemma lookup_handler_explicit_ok (env : LookupEnv) (ip : String) (j : Json)
    (h : env.upstream (apiUrl ip) = .ok j) :
    lookup_handler env ⟨some ip⟩ =
      some (.ok { ip := extract_ip j, raw := j,
                  latency_ms := env.latencyMs,
                  request_id := requestIdOf env.header env.freshId },
            [{ ip := extract_ip j, latencyMs := env.latencyMs,
               requestId := requestIdOf env.header env.freshId }]) := by
  simp [lookup_handler, lookup_external_ip, h]

/-- Self-lookup branch, `perform_lookup` failure: the handler answers 500. -/
lemma lookup_handler_self_err (env : LookupEnv)
    (h : env.selfLookup = .error ()) :
    lookup_handler env ⟨none⟩ = some (.error INTERNAL_SERVER_ERROR, []) := by
  simp [lookup_handler, h]

/-- Self-lookup branch, serialization failure: the handler panics. -/
lemma lookup_handler_self_serFail (env : LookupEnv)
    (h : env.selfLookup = .ok none) :
    lookup_handler env ⟨none⟩ = none := by
  simp [lookup_handler, h]

/-- Self-lookup branch, serialized document `j`: the handler succeeds with
the normalized IP, the raw document, and one log line. -/
lemma lookup_handler_self_ok (env : LookupEnv) (j : Json)
    (h : env.selfLookup = .ok (some j)) :
    lookup_handler env ⟨none⟩ =
      some (.ok { ip := extract_ip j, raw := j,
                  latency_ms := env.latencyMs,
                  request_id := requestIdOf env.header env.freshId },
            [{ ip := extract_ip j, latencyMs := env.latencyMs,
               requestId := requestIdOf env.header env.freshId }]) := by
  simp [lookup_handler, h]

/-- Exhaustive shape of every `lookup_handler` outcome: a panic, a 502
with no log, a 500 with no log, or a success carrying exactly one log line
whose fields match the response. -/
lemma lookup_handler_shape (env : LookupEnv) (req : LookupRequest) :
    lookup_handler env req = none ∨
    lookup_handler env req = some (.error BAD_GATEWAY, []) ∨
    lookup_handler env req = some (.error INTERNAL_SERVER_ERROR, []) ∨
    ∃ j, lookup_handler env req =
      some (.ok { ip := extract_ip j, raw := j,
                  latency_ms := env.latencyMs,
                  request_id := requestIdOf env.header env.freshId },
            [{ ip := extract_ip j, latencyMs := env.latencyMs,
               requestId := requestIdOf env.header env.freshId }]) := by
  rcases req with ⟨ip⟩
  rcases ip with _ | ip
  · rcases hs : env.selfLookup with _ | oj
    · exact Or.inr (Or.inr (Or.inl (lookup_handler_self_err env hs)))
    · rcases oj with _ | j
      · exact Or.inl (lookup_handler_self_serFail env hs)
      · exact Or.inr (Or.inr (Or.inr ⟨j, lookup_handler_self_ok env j hs⟩))
  · rcases hu : env.upstream (apiUrl ip) with _ | _ | j
    · exact Or.inr (Or.inl (lookup_handler_explicit_netErr env ip hu))
    · exact Or.inr (Or.inl (lookup_handler_explicit_parseErr env ip hu))
    · exact Or.inr (Or.inr (Or.inr ⟨j, lookup_handler_explicit_ok env ip j hu⟩))

/-- Every non-panicking run of the explicit-IP branch is a success or a
502. -/
lemma lookup_handler_explicit_codes (env : LookupEnv) (s : String)
    (res : Except Nat LookupResponse) (logs : List LogEntry)
    (h : lookup_handler env ⟨some s⟩ = some (res, logs)) :
    (∃ r, res = .ok r) ∨ res = .error BAD_GATEWAY := by
  rcases hu : env.upstream (apiUrl s) with _ | _ | j
  · rw [lookup_handler_explicit_netErr env s hu] at h
    simp at h
    exact Or.inr h.1.symm
  · rw [lookup_handler_explicit_parseErr env s hu] at h
    simp at h
    exact Or.inr h.1.symm
  · rw [lookup_handler_explicit_ok env s j hu] at h
    simp at h
    exact Or.inl ⟨_, h.1.symm⟩

/-- Every success of `lookup_handler` carries the correlation id computed
by `requestIdOf` from the header and the fresh UUID. -/
lemma lookup_handler_success_request_id (env : LookupEnv)
    (req : LookupRequest) (resp : LookupResponse) (logs : List LogEntry)
    (h : lookup_handler env req = some (.ok resp, logs)) :
    resp.request_id = requestIdOf env.header env.freshId := by
  rcases lookup_handler_shape env req with h0 | h0 | h0 | ⟨j, h0⟩ <;>
    rw [h0] at h
  · exact absurd h (by simp)
  · exact absurd h (by simp)
  · exact absurd h (by simp)
  · injection h with h'
    have hfst := congrArg Prod.fst h'
    simp at hfst
    rw [← hfst]

/-- State component of each dispatch: the handlers never write it. -/
lemma handleRequest_fst (s : AppState) (r : Request) :
    (handleRequest s r).1 = s := by
  cases r <;> rfl

/-- Serving any request list leaves the state untouched. -/
lemma runServer_id (rs : List Request) (s : AppState) :
    runServer s rs = s := by
  induction rs generalizing s with
  | nil => rfl
  | cons r rs ih =>
    have h1 : runServer s (r :: rs) = runServer (handleRequest s r).1 rs := rfl
    rw [h1, handleRequest_fst]
    exact ih s

/-- Evaluation of `requestIdOf` on the three header shapes. -/
lemma requestIdOf_cases (freshId : String) :
    (∀ s, requestIdOf (some (some s)) freshId = s) ∧
    requestIdOf (some none) freshId = freshId ∧
    requestIdOf none freshId = freshId := by
  refine ⟨fun s => rfl, rfl, rfl⟩

/-! ## Claims -/

/-- Claim C2: for every successful lookup, the `ip` field is computed by
checking the upstream JSON's `query` field first, then its `ip` field,
and is the literal `"unknown"` when neither field exists or neither holds
a string; the raw upstream JSON is returned unchanged in `raw`. -/
theorem c2_ip_extraction_and_raw :
    (∀ j s, Json.get j "query" = some (Json.str s) → extract_ip j = s) ∧
    (∀ j s, Json.get j "query" = none →
      Json.get j "ip" = some (Json.str s) → extract_ip j = s) ∧
    (∀ j, Json.get j "query" = none → Json.get j "ip" = none →
      extract_ip j = "unknown") ∧
    (∀ j, (Json.get j "query").bind Json.asStr = none →
      (Json.get j "ip").bind Json.asStr = none →
      extract_ip j = "unknown") ∧
    (∀ (env : LookupEnv) (ip : String) (j : Json) (resp : LookupResponse)
        (logs : List LogEntry), env.upstream (apiUrl ip) = .ok j →
      lookup_handler env ⟨some ip⟩ = some (.ok resp, logs) →
      resp.raw = j ∧ resp.ip = extract_ip j) ∧
    (∀ (env : LookupEnv) (j : Json) (resp : LookupResponse)
        (logs : List LogEntry), env.selfLookup = .ok (some j) →
      lookup_handler env ⟨none⟩ = some (.ok resp, logs) →
      resp.raw = j ∧ resp.ip = extract_ip j) := by
  refine ⟨?_, ?_, ?_, ?_, ?_, ?_⟩
  · intro j s h
    simp [extract_ip, h, Option.orElse, Json.asStr]
  · intro j s hq hip
    simp [extract_ip, hq, hip, Option.orElse, Json.asStr]
  · intro j hq hip
    simp [extract_ip, hq, hip, Option.orElse]
  · intro j hq hip
    unfold extract_ip
    cases h : Json.get j "query" with
    | some v =>
      rw [h] at hq
      simp [Option.orElse, hq]
    | none =>
      rw [h] at hq
      simp [Option.orElse, hip]
  · intro env ip j resp logs hu h
    rw [lookup_handler_explicit_ok env ip j hu] at h
    simp at h
    rw [← h.1]
    exact ⟨rfl, rfl⟩
  · intro env j resp logs hs h
    rw [lookup_handler_self_ok env j hs] at h
    simp at h
    rw [← h.1]
    exact ⟨rfl, rfl⟩

/-- Witness for C2 at a concrete JSON document holding a `query` string. -/
theorem c2_ip_extraction_and_raw_witness :
    extract_ip (Json.obj [("query", Json.str "8.8.8.8")]) = "8.8.8.8" :=
  c2_ip_extraction_and_raw.1 (Json.obj [("query", Json.str "8.8.8.8")])
    "8.8.8.8" rfl

/-- Claim C4: when the `x-request-id` header parses as a string, the
response echoes it in `request_id`; when it is absent or unparsable, the
response carries the freshly generated UUID, so two such requests with
distinct fresh UUIDs receive distinct identifiers. Randomness of
`Uuid::new_v4` is modelled by the environment-supplied `freshId`. -/
theorem c4_request_id_echo_or_fresh :
    (∀ (env : LookupEnv) (req : LookupRequest) (resp : LookupResponse)
        (logs : List LogEntry) (s : String), env.header = some (some s) →
      lookup_handler env req = some (.ok resp, logs) →
      resp.request_id = s) ∧
    (∀ (env : LookupEnv) (req : LookupRequest) (resp : LookupResponse)
        (logs : List LogEntry),
      env.header = none ∨ env.header = some none →
      lookup_handler env req = some (.ok resp, logs) →
      resp.request_id = env.freshId) ∧
    (∀ (env env' : LookupEnv) (req req' : LookupRequest)
        (resp resp' : LookupResponse) (logs logs' : List LogEntry),
      env.header = none ∨ env.header = some none →
      env'.header = none ∨ env'.header = some none →
      env.freshId ≠ env'.freshId →
      lookup_handler env req = some (.ok resp, logs) →
      lookup_handler env' req' = some (.ok resp', logs') →
      resp.request_id ≠ resp'.request_id) := by
  have hid : ∀ (env : LookupEnv),
      env.header = none ∨ env.header = some none →
      requestIdOf env.header env.freshId = env.freshId := by
    intro env h
    rcases h with h | h <;> rw [h] <;> rfl
  refine ⟨?_, ?_, ?_⟩
  · intro env req resp logs s hh h
    rw [lookup_handler_success_request_id env req resp logs h, hh]
    rfl
  · intro env req resp logs hh h
    rw [lookup_handler_success_request_id env req resp logs h, hid env hh]
  · intro env env' req req' resp resp' logs logs' hh hh' hne h h'
    rw [lookup_handler_success_request_id env req resp logs h, hid env hh,
      lookup_handler_success_request_id env' req' resp' logs' h',
      hid env' hh']
    exact hne

/-- Witness for C4: a concrete request with header value `"abc"` echoes it
back in `request_id`. -/
theorem c4_request_id_echo_or_fresh_witness :
    ({ ip := "unknown", raw := Json.obj [], latency_ms := 7,
       request_id := "abc" } : LookupResponse).request_id = "abc" :=
  c4_request_id_echo_or_fresh.1
    { header := some (some "abc"), freshId := "f0",
      upstream := fun _ => .ok (Json.obj []),
      selfLookup := .ok (some (Json.obj [])), latencyMs := 7 }
    ⟨some "1.2.3.4"⟩
    { ip := "unknown", raw := Json.obj [], latency_ms := 7,
      request_id := "abc" }
    [{ ip := "unknown", latencyMs := 7, requestId := "abc" }]
    "abc" rfl rfl

/-- Claim C5: every call to `health` that returns answers status exactly
`"ok"` with `uptime_sec` equal to now minus the process start time (a
natural number, hence non-negative), and `uptime_sec` never decreases
across successive calls in one process. -/
theorem c5_health_ok_uptime_monotone (st : AppState) (now now' : Nat)
    (h1 : st.started_at ≤ now) (h2 : now ≤ now') :
    health_handler st now =
      some { status := "ok", uptime_sec := now - st.started_at } ∧
    (∀ r r' : HealthResponse, health_handler st now = some r →
      health_handler st now' = some r' → r.uptime_sec ≤ r'.uptime_sec) := by
  have h1' : st.started_at ≤ now' := le_trans h1 h2
  constructor
  · simp [health_handler, systemTimeElapsed, h1]
  · intro r r' hr hr'
    simp [health_handler, systemTimeElapsed, h1] at hr
    simp [health_handler, systemTimeElapsed, h1'] at hr'
    rw [← hr, ← hr']
    exact Nat.sub_le_sub_right h2 st.started_at

/-- Witness for C5 at start time 2, clock readings 5 and 9. -/
theorem c5_health_ok_uptime_monotone_witness :
    health_handler { started_at := 2 } 5 =
      some { status := "ok", uptime_sec := 3 } :=
  (c5_health_ok_uptime_monotone { started_at := 2 } 5 9 (by decide)
    (by decide)).1

/-- Claim C6: the process state is created exactly once at startup and no
operation modifies it — each dispatch leaves the state unchanged, serving
any request list from boot preserves the initial state, and a health
request after any prefix of traffic observes the boot-time state. -/
theorem c6_state_created_once_immutable :
    (∀ (s : AppState) (r : Request), (handleRequest s r).1 = s) ∧
    (∀ (bootTime : Nat) (rs : List Request),
      runServer (mainInit bootTime) rs = mainInit bootTime) ∧
    (∀ (bootTime : Nat) (rs : List Request) (now : Nat),
      (handleRequest (runServer (mainInit bootTime) rs)
        (.health now)).2 =
      .healthOut (health_handler (mainInit bootTime) now)) := by
  refine ⟨handleRequest_fst, fun bootTime rs => runServer_id rs _, ?_⟩
  intro bootTime rs now
  rw [runServer_id]
  rfl

/-- Claim C7: every `metrics` call that returns carries the constant
service name `"adatari-ip-service"`, the fixed build version, and the
elapsed whole seconds; any two calls in one process agree on `service`
and `version`. -/
theorem c7_metrics_stable_service_version (st : AppState) (now now' : Nat)
    (h1 : st.started_at ≤ now) :
    metrics_handler st now =
      some { service := "adatari-ip-service", version := cargoPkgVersion,
             uptime_sec := now - st.started_at } ∧
    (∀ r r' : MetricsResponse, metrics_handler st now = some r →
      metrics_handler st now' = some r' →
      r.service = r'.service ∧ r.version = r'.version) := by
  constructor
  · simp [metrics_handler, systemTimeElapsed, h1]
  · intro r r' hr hr'
    by_cases hc : st.started_at ≤ now'
    · simp [metrics_handler, systemTimeElapsed, h1] at hr
      simp [metrics_handler, systemTimeElapsed, hc] at hr'
      rw [← hr, ← hr']
      exact ⟨rfl, rfl⟩
    · simp [metrics_handler, systemTimeElapsed, hc] at hr'

/-- Witness for C7 at start time 4 and clock reading 10. -/
theorem c7_metrics_stable_service_version_witness :
    metrics_handler { started_at := 4 } 10 =
      some { service := "adatari-ip-service", version := cargoPkgVersion,
             uptime_sec := 6 } :=
  (c7_metrics_stable_service_version { started_at := 4 } 10 11
    (by decide)).1

/-- Claim C8: `lookup` emits exactly one structured log line per call, and
only on the success path: the line carries the resolved IP, the measured
latency and the correlation id of the response, while every error outcome
emits no log line at all. -/
theorem c8_single_log_success_only (env : LookupEnv) (req : LookupRequest) :
    (∀ (resp : LookupResponse) (logs : List LogEntry),
      lookup_handler env req = some (.ok resp, logs) →
      logs = [{ ip := resp.ip, latencyMs := resp.latency_ms,
                requestId := resp.request_id }]) ∧
    (∀ (code : Nat) (logs : List LogEntry),
      lookup_handler env req = some (.error code, logs) → logs = []) := by
  constructor
  · intro resp logs h
    rcases lookup_handler_shape env req with h0 | h0 | h0 | ⟨j, h0⟩ <;>
      rw [h0] at h
    · exact absurd h (by simp)
    · simp at h
    · simp at h
    · simp at h
      rcases h with ⟨hresp, hlogs⟩
      rw [← hlogs, ← hresp]
  · intro code logs h
    rcases lookup_handler_shape env req with h0 | h0 | h0 | ⟨j, h0⟩ <;>
      rw [h0] at h
    · exact absurd h (by simp)
    · simp at h
      exact h.2
    · simp at h
      exact h.2
    · simp at h

/-- Environment of a concrete successful lookup, used to exercise the
success-path logging of `lookup_handler`. -/
def c8WitnessEnv : LookupEnv :=
  { header := some (some "rid"), freshId := "f1",
    upstream := fun _ => .ok (Json.obj [("query", Json.str "9.9.9.9")]),
    selfLookup := .error (), latencyMs := 3 }

/-- Response produced by the concrete successful lookup in
`c8WitnessEnv`. -/
def c8WitnessResp : LookupResponse :=
  { ip := "9.9.9.9", raw := Json.obj [("query", Json.str "9.9.9.9")],
    latency_ms := 3, request_id := "rid" }

/-- Witness for C8: a concrete successful lookup emits exactly the one log
line built from its response fields. -/
theorem c8_single_log_success_only_witness :
    ([{ ip := "9.9.9.9", latencyMs := 3, requestId := "rid" }] :
        List LogEntry) =
      [{ ip := c8WitnessResp.ip, latencyMs := c8WitnessResp.latency_ms,
         requestId := c8WitnessResp.request_id }] :=
  (c8_single_log_success_only c8WitnessEnv ⟨some "9.9.9.9"⟩).1
    c8WitnessResp
    [{ ip := "9.9.9.9", latencyMs := 3, requestId := "rid" }] rfl

/-- Claim C9: the supplied IP string is interpolated verbatim into the
provider URL with no validation, the external call depends on the network
only at that URL, and the handler itself never produces a 4xx status —
the explicit-IP branch yields 200 or 502 only, and every error status of
the handler is 502 or 500, none of which is a client error. -/
theorem c9_no_validation_no_4xx :
    (∀ ip : String,
      apiUrl ip = "http://ip-api.com/json/" ++ ip ++ "?fields=66846719") ∧
    (∀ (get get' : String → Upstream) (ip : String),
      get (apiUrl ip) = get' (apiUrl ip) →
      lookup_external_ip get ip = lookup_external_ip get' ip) ∧
    (∀ (env : LookupEnv) (s : String) (res : Except Nat LookupResponse)
        (logs : List LogEntry),
      lookup_handler env ⟨some s⟩ = some (res, logs) →
      (∃ r, res = .ok r) ∨ res = .error BAD_GATEWAY) ∧
    (∀ (env : LookupEnv) (req : LookupRequest)
        (res : Except Nat LookupResponse) (logs : List LogEntry)
        (code : Nat),
      lookup_handler env req = some (res, logs) → res = .error code →
      code = BAD_GATEWAY ∨ code = INTERNAL_SERVER_ERROR) ∧
    (∀ code : Nat, code = BAD_GATEWAY ∨ code = INTERNAL_SERVER_ERROR →
      ¬(400 ≤ code ∧ code < 500)) := by
  refine ⟨fun ip => rfl, ?_, lookup_handler_explicit_codes, ?_, ?_⟩
  · intro get get' ip h
    unfold lookup_external_ip
    rw [h]
  · intro env req res logs code h hres
    rw [hres] at h
    rcases lookup_handler_shape env req with h0 | h0 | h0 | ⟨j, h0⟩ <;>
      rw [h0] at h
    · exact absurd h (by simp)
    · simp at h
      exact Or.inl h.1.symm
    · simp at h
      exact Or.inr h.1.symm
    · simp at h
  · intro code h
    rcases h with h | h <;> subst h <;> decide

/-- Witness for C9: a concrete explicit-IP lookup against a failing
network yields the 502 outcome. -/
theorem c9_no_validation_no_4xx_witness :
    (∃ r : LookupResponse,
      (Except.error BAD_GATEWAY : Except Nat LookupResponse) = .ok r) ∨
    (Except.error BAD_GATEWAY : Except Nat LookupResponse) =
      .error BAD_GATEWAY :=
  c9_no_validation_no_4xx.2.2.1
    { header := none, freshId := "f2", upstream := fun _ => .netErr,
      selfLookup := .error (), latencyMs := 0 }
    "not-an-ip at all" (.error BAD_GATEWAY) [] rfl

/-- Claim C10: `health` and `metrics` compute uptime by the identical
expression: at any one state and clock reading the two handlers agree on
`uptime_sec`, and one panics exactly when the other does. -/
theorem c10_health_metrics_uptime_agree (st : AppState) (now : Nat) :
    (∀ (hr : HealthResponse) (mr : MetricsResponse),
      health_handler st now = some hr → metrics_handler st now = some mr →
      hr.uptime_sec = mr.uptime_sec) ∧
    (health_handler st now = none ↔ metrics_handler st now = none) := by
  by_cases hc : st.started_at ≤ now
  · constructor
    · intro hr mr h1 h2
      simp [health_handler, systemTimeElapsed, hc] at h1
      simp [metrics_handler, systemTimeElapsed, hc] at h2
      rw [← h1, ← h2]
    · simp [health_handler, metrics_handler, systemTimeElapsed, hc]
  · constructor
    · intro hr mr h1 h2
      simp [health_handler, systemTimeElapsed, hc] at h1
    · simp [health_handler, metrics_handler, systemTimeElapsed, hc]

/-- Witness for C10 at start time 0 and clock reading 3. -/
theorem c10_health_metrics_uptime_agree_witness :
    ({ status := "ok", uptime_sec := 3 } : HealthResponse).uptime_sec =
      ({ service := "adatari-ip-service", version := cargoPkgVersion,
         uptime_sec := 3 } : MetricsResponse).uptime_sec :=
  (c10_health_metrics_uptime_agree { started_at := 0 } 3).1
    { status := "ok", uptime_sec := 3 }
    { service := "adatari-ip-service", version := cargoPkgVersion,
      uptime_sec := 3 } rfl rfl

/-- Environment in which `perform_lookup(None)` fails: exercises the
self-lookup error path of `lookup_handler`. -/
def selfFailEnv : LookupEnv :=
  { header := none, freshId := "u0", upstream := fun _ => .netErr,
    selfLookup := .error (), latencyMs := 0 }

/-- Counterexample to claim C1 as stated: on the self-lookup branch an
upstream failure produces 500 (Internal Server Error), not the claimed
gateway-class 502. -/
theorem c1_self_branch_counterexample :
    lookup_handler selfFailEnv ⟨none⟩ =
      some (.error INTERNAL_SERVER_ERROR, []) ∧
    INTERNAL_SERVER_ERROR ≠ BAD_GATEWAY := by
  exact ⟨rfl, by decide⟩

/-- Claim C1, amended: an upstream failure never yields a 200 on either
branch; the explicit-IP branch returns 502 (Bad Gateway), while the
self-lookup branch returns 500 (Internal Server Error). -/
theorem c1_upstream_failure_status (env : LookupEnv) (ip : String)
    (hfail : env.upstream (apiUrl ip) = .netErr ∨
      env.upstream (apiUrl ip) = .parseErr) :
    lookup_handler env ⟨some ip⟩ = some (.error BAD_GATEWAY, []) ∧
    (∀ (resp : LookupResponse) (logs : List LogEntry),
      lookup_handler env ⟨some ip⟩ ≠ some (.ok resp, logs)) ∧
    (∀ env' : LookupEnv, env'.selfLookup = .error () →
      lookup_handler env' ⟨none⟩ =
        some (.error INTERNAL_SERVER_ERROR, []) ∧
      ∀ (resp : LookupResponse) (logs : List LogEntry),
        lookup_handler env' ⟨none⟩ ≠ some (.ok resp, logs)) := by
  have hbg : lookup_handler env ⟨some ip⟩ =
      some (.error BAD_GATEWAY, []) := by
    rcases hfail with h | h
    · exact lookup_handler_explicit_netErr env ip h
    · exact lookup_handler_explicit_parseErr env ip h
  refine ⟨hbg, ?_, ?_⟩
  · intro resp logs hcontra
    rw [hbg] at hcontra
    simp at hcontra
  · intro env' h'
    have h500 := lookup_handler_self_err env' h'
    refine ⟨h500, ?_⟩
    intro resp logs hcontra
    rw [h500] at hcontra
    simp at hcontra

/-- Witness for the amended C1: a concrete explicit-IP lookup against an
unreachable network answers exactly 502 with no log line. -/
theorem c1_upstream_failure_status_witness :
    lookup_handler
      { header := none, freshId := "u2", upstream := fun _ => .netErr,
        selfLookup := .error (), latencyMs := 0 }
      ⟨some "8.8.8.8"⟩ = some (.error BAD_GATEWAY, []) :=
  (c1_upstream_failure_status
    { header := none, freshId := "u2", upstream := fun _ => .netErr,
      selfLookup := .error (), latencyMs := 0 }
    "8.8.8.8" (Or.inl rfl)).1

/-- Environment in which `perform_lookup(None)` succeeds but serializing
its result fails: exercises the `unwrap` panic in `lookup_handler`. -/
def serFailEnv : LookupEnv :=
  { header := none, freshId := "u1", upstream := fun _ => .netErr,
    selfLookup := .ok none, latencyMs := 0 }

/-- Counterexample to claim C3 as stated: when the clock reads before the
start time, `health` and `metrics` panic (`elapsed().unwrap()`) and
produce no HTTP response at all — in particular no 500 — and a
serialization failure makes `lookup` panic likewise. -/
theorem c3_panic_counterexample :
    health_handler { started_at := 5 } 3 = none ∧
    metrics_handler { started_at := 5 } 3 = none ∧
    lookup_handler serFailEnv ⟨none⟩ = none := by
  exact ⟨rfl, rfl, rfl⟩

/-- Claim C3, amended: a failed clock read inside `health` or `metrics`,
or a failed JSON serialization inside `lookup`, aborts the handler by
panic, returning no HTTP response; these failures never surface a 500
status. -/
theorem c3_clock_serialization_panic (st : AppState) (now : Nat)
    (hclock : ¬ st.started_at ≤ now) :
    health_handler st now = none ∧
    metrics_handler st now = none ∧
    (∀ env : LookupEnv, env.selfLookup = .ok none →
      lookup_handler env ⟨none⟩ = none) := by
  refine ⟨?_, ?_, fun env h => lookup_handler_self_serFail env h⟩
  · simp [health_handler, systemTimeElapsed, hclock]
  · simp [metrics_handler, systemTimeElapsed, hclock]

/-- Witness for the amended C3 at start time 5 and clock reading 3. -/
theorem c3_clock_serialization_panic_witness :
    health_handler { started_at := 5 } 3 = none :=
  (c3_clock_serialization_panic { started_at := 5 } 3 (by decide)).1
